import Mathlib

/-!
Verification of the request handler in `src/pages/api/tenant/[slug].ts`.

The handler is embedded shallowly: request data is an explicit `Request`
record, ambient state (`process.env.SECRET`, the clock) and the results of
the external collaborators (`TenantStore`, `SessionVerifier`, the schema
validator) form a `World`, and the handler is a pure function producing the
HTTP response together with the store calls it delegated.
-/

deriving instance DecidableEq for Except

namespace TenantEndpoint

/-- A JS-object-like record of string-valued fields, as an association list
(field name, value).  Used for the PATCH body `tenant` and for tenant records
returned by the store. -/
abbrev Obj := List (String × String)

/-- The error shape carried by a failing `TenantStore.fetch`/`create` call:
`{status, statusText}`. -/
structure StoreError where
  status : Nat
  statusText : String
deriving DecidableEq, Repr

/-- The tenant draft the POST branch constructs before delegating to
`TenantStore.create`: `{slug, createdAt, tier, tierUntil}` (times in
milliseconds since the epoch, as JS dates). -/
structure TenantDraft where
  slug : String
  createdAt : Nat
  tier : String
  tierUntil : Nat
deriving DecidableEq, Repr

/-- The body of an HTTP response produced by the handler.  `empty` is
`res.end()`, `text s` is `res.end(s)`, `json t` is `res.json(t)` for a tenant
record, and the POST success body `{success: true}` is `jsonSuccess`. -/
inductive Body where
  | empty : Body
  | text (s : String) : Body
  | json (t : Obj) : Body
  | jsonSuccess : Body
deriving DecidableEq, Repr

/-- An HTTP response: status code and body. -/
structure Response where
  status : Nat
  body : Body
deriving DecidableEq, Repr

/-- The calls the handler delegated to the external `TenantStore`, recorded in
order: `fetch(slug)`, `create(email, password, draft)`, `update(id, patch)`. -/
structure Effects where
  fetchCalls : List String
  createCalls : List (String × String × TenantDraft)
  updateCalls : List (String × Obj)
deriving DecidableEq, Repr

/-- No store call delegated. -/
def noEffects : Effects := ⟨[], [], []⟩

/-- The handler's environment: the process-wide `SECRET` (absent when the
environment variable is unset), the current clock reading, and oracles giving
the results of the external `TenantStore.fetch/create/update`,
`SessionVerifier.verify` and server-fetch-schema validation calls. -/
structure World where
  envSecret : Option String
  now : Nat
  fetchResult : String → Except StoreError Obj
  createResult : String → String → TenantDraft → Except StoreError Unit
  updateResult : String → Obj → Except StoreError Unit
  verifyResult : Option String → Except Unit String
  serverFetchIsValid : String → TenantDraft → Bool

/-- An inbound HTTP request as the handler reads it: the method, the
`slug`/`secret` query parameters, the body fields of the POST and PATCH
shapes, and the `authorization` header.  Fields a request does not carry are
`none` (JS `undefined`). -/
structure Request where
  method : String
  querySlug : String
  querySecret : Option String
  bodyEmail : Option String
  bodyPassword : Option String
  bodySecret : Option String
  bodyTenant : Option Obj
  authToken : Option String

/-- JS truthiness of an optional string: `undefined` and `""` are falsy. -/
def truthy : Option String → Bool
  | none => false
  | some s => s != ""

/-- Field access `obj?.k` on a JS-object-like record: the value bound to the
key, if any. -/
def objGet (t : Obj) (k : String) : Option String :=
  (t.find? (fun kv => kv.1 == k)).map (fun kv => kv.2)

/-- The rest-spread `const {id, ...rest} = tenant`: every field except `id`. -/
def removeId (t : Obj) : Obj :=
  t.filter (fun kv => kv.1 != "id")

/-- Modelled from the spec: `schemas.server.create.cast` from
`~/tenant/schemas`, a module of this repository that is not under `src/`.
The spec describes schema casting as pure coercion/defaulting and states the
draft's stamped fields (`createdAt` = current time, `tier` = "commercial",
`tierUntil` = one week from now) as the cast's outcome, so the cast is
modelled as preserving the draft. -/
def serverCreateCast (d : TenantDraft) : TenantDraft := d

/-- Modelled from the spec: `schemas.server.update.cast` from
`~/tenant/schemas` (not under `src/`); pure coercion of the patch fields,
modelled as preserving the record. -/
def serverUpdateCast (t : Obj) : Obj := t

/-- Modelled from the spec: `schemas.client.fetch.cast` from
`~/tenant/schemas` (not under `src/`); coercion of a fetched tenant to its
client view, modelled as preserving the record. -/
def clientFetchCast (t : Obj) : Obj := t

/-- Milliseconds in one week. -/
def oneWeekMs : Nat := 7 * 24 * 60 * 60 * 1000

/-- Modelled from the spec: `dates.now` from `~/utils/date` (not under
`src/`) is the current time, here the world's clock reading. -/
def datesNow (w : World) : Nat := w.now

/-- Modelled from the spec: `dates.oneWeekFromNow` from `~/utils/date` (not
under `src/`) is one week ahead of the current time. -/
def datesOneWeekFromNow (w : World) : Nat := w.now + oneWeekMs

/-- The draft tenant the POST branch stores before validation:
`schemas.server.create.cast({slug, createdAt: dates.now, tier: "commercial",
tierUntil: dates.oneWeekFromNow})`. -/
def postDraft (w : World) (slug : String) : TenantDraft :=
  serverCreateCast ⟨slug, datesNow w, "commercial", datesOneWeekFromNow w⟩

/-- The default-export request handler of `src/pages/api/tenant/[slug].ts`,
returning the response together with the store calls it delegated. -/
def handler (w : World) (req : Request) : Response × Effects :=
  if req.method == "GET" then
    -- if (secret !== process.env.SECRET) return res.status(304).end()
    if req.querySecret != w.envSecret then (⟨304, .empty⟩, noEffects)
    else
      match w.fetchResult req.querySlug with
      | .ok tenant =>
          (⟨200, .json (clientFetchCast tenant)⟩,
           { noEffects with fetchCalls := [req.querySlug] })
      | .error e =>
          (⟨e.status, .text e.statusText⟩,
           { noEffects with fetchCalls := [req.querySlug] })
  else if req.method == "POST" then
    -- if (!email || !password || !slug || !secret || secret !== process.env.SECRET)
    if !truthy req.bodyEmail || !truthy req.bodyPassword || req.querySlug == "" ||
        !truthy req.bodySecret || req.bodySecret != w.envSecret then
      (⟨304, .empty⟩, noEffects)
    else
      let tenant := postDraft w req.querySlug
      -- if (!schemas.server.fetch.isValidSync({id: "fake-id", ...tenant}))
      if !(w.serverFetchIsValid "fake-id" tenant) then (⟨304, .empty⟩, noEffects)
      else
        match w.createResult (req.bodyEmail.getD "") (req.bodyPassword.getD "") tenant with
        | .ok _ =>
            (⟨200, .jsonSuccess⟩,
             { noEffects with
                createCalls := [(req.bodyEmail.getD "", req.bodyPassword.getD "", tenant)] })
        | .error e =>
            (⟨e.status, .text e.statusText⟩,
             { noEffects with
                createCalls := [(req.bodyEmail.getD "", req.bodyPassword.getD "", tenant)] })
  else if req.method == "PATCH" then
    match req.bodyTenant with
    | none => (⟨304, .empty⟩, noEffects)
    | some tenant =>
      -- if (!tenant || !tenant?.id || !tenant?.slug)
      if !truthy (objGet tenant "id") || !truthy (objGet tenant "slug") then
        (⟨304, .empty⟩, noEffects)
      else
        let id := (objGet tenant "id").getD ""
        let rest := removeId tenant
        match w.verifyResult req.authToken with
        | .error _ =>
            (⟨401, .text "La sesión expiró, volvé a iniciar sesión para continuar"⟩, noEffects)
        | .ok uid =>
          if uid != id then (⟨403, .empty⟩, noEffects)
          else
            match w.updateResult id (serverUpdateCast rest) with
            | .ok _ =>
                (⟨200, .json tenant⟩,
                 { noEffects with updateCalls := [(id, serverUpdateCast rest)] })
            | .error _ =>
                (⟨400, .text "Hubo un error actualizando la tienda"⟩,
                 { noEffects with updateCalls := [(id, serverUpdateCast rest)] })
  else (⟨304, .empty⟩, noEffects)

/-! Concrete worlds and requests used to instantiate the theorems. -/

/-- A world where every external call succeeds: the configured secret is
"s3cret", the token "good-token" verifies to user "u1" and "intruder-token"
to user "u2". -/
def wOk : World :=
  ⟨some "s3cret", 1000,
   fun _ => .ok [("id", "u1"), ("slug", "store")],
   fun _ _ _ => .ok (),
   fun _ _ => .ok (),
   fun t => match t with
     | some "good-token" => .ok "u1"
     | some "intruder-token" => .ok "u2"
     | _ => .error (),
   fun _ _ => true⟩

/-- A world where every store call fails and session verification fails. -/
def wErr : World :=
  ⟨some "s3cret", 1000,
   fun _ => .error ⟨418, "teapot"⟩,
   fun _ _ _ => .error ⟨409, "conflict"⟩,
   fun _ _ => .error ⟨500, "boom"⟩,
   fun _ => .error (),
   fun _ _ => true⟩

/-- `wOk` with a failing `TenantStore.update`. -/
def wUpdateFail : World :=
  { wOk with updateResult := fun _ _ => Except.error ⟨502, "db down"⟩ }

/-- `wOk` with the `SECRET` environment variable unset. -/
def wNoSecret : World :=
  { wOk with envSecret := none }

/-- A GET request carrying the correct secret. -/
def reqGet : Request := ⟨"GET", "store", some "s3cret", none, none, none, none, none⟩

/-- A GET request carrying no secret at all. -/
def reqGetNoSecret : Request := ⟨"GET", "store", none, none, none, none, none, none⟩

/-- A POST request with all fields present and the correct secret. -/
def reqPost : Request :=
  ⟨"POST", "store", none, some "a@b.c", some "hunter2", some "s3cret", none, none⟩

/-- A submitted PATCH tenant object owned by user "u1". -/
def patchTenant : Obj := [("id", "u1"), ("slug", "store"), ("color", "teal")]

/-- A PATCH request for `patchTenant` with the owner's token. -/
def reqPatch : Request :=
  ⟨"PATCH", "store", none, none, none, none, some patchTenant, some "good-token"⟩

/-- A PATCH request for `patchTenant` with a token of a different user. -/
def reqPatchIntruder : Request :=
  ⟨"PATCH", "store", none, none, none, none, some patchTenant, some "intruder-token"⟩

/-- C6: a GET whose `secret` query parameter differs from the configured
secret is answered 304 with an empty body, and `TenantStore.fetch` is not
invoked. -/
theorem get_wrong_secret_rejected (w : World) (req : Request)
    (hm : req.method = "GET") (hne : req.querySecret ≠ w.envSecret) :
    (handler w req).1 = ⟨304, .empty⟩ ∧ (handler w req).2.fetchCalls = [] := by
  simp [handler, hm, hne, noEffects]

theorem get_wrong_secret_rejected_witness :
    (handler wOk ⟨"GET", "store", some "wrong", none, none, none, none, none⟩).1 =
      ⟨304, .empty⟩ ∧
    (handler wOk ⟨"GET", "store", some "wrong", none, none, none, none, none⟩).2.fetchCalls =
      [] :=
  get_wrong_secret_rejected wOk _ rfl (by decide)

/-- C7: a POST missing or blank any of email/password/slug/secret, or whose
secret differs from the configured secret, is answered 304 with an empty body
and `TenantStore.create` is not invoked. -/
theorem post_invalid_rejected (w : World) (req : Request)
    (hm : req.method = "POST")
    (h : truthy req.bodyEmail = false ∨ truthy req.bodyPassword = false ∨
         req.querySlug = "" ∨ truthy req.bodySecret = false ∨
         req.bodySecret ≠ w.envSecret) :
    (handler w req).1 = ⟨304, .empty⟩ ∧ (handler w req).2.createCalls = [] := by
  rcases h with h | h | h | h | h <;> simp [handler, hm, h, noEffects]

theorem post_invalid_rejected_witness :
    (handler wOk ⟨"POST", "store", none, none, some "hunter2", some "s3cret", none, none⟩).1 =
      ⟨304, .empty⟩ ∧
    (handler wOk
        ⟨"POST", "store", none, none, some "hunter2", some "s3cret", none, none⟩).2.createCalls =
      [] :=
  post_invalid_rejected wOk _ rfl (Or.inl (by decide))

/-- C10: on GET, when neither a `secret` query parameter nor a configured
secret is present, the gate passes and `TenantStore.fetch` is invoked; the
304 empty rejection occurs exactly when the provided secret differs from the
configured one. -/
theorem get_secret_gate (w : World) (req : Request) (hm : req.method = "GET") :
    (req.querySecret = none → w.envSecret = none →
      (handler w req).2.fetchCalls = [req.querySlug]) ∧
    (((handler w req).1 = ⟨304, .empty⟩ ∧ (handler w req).2.fetchCalls = []) ↔
      req.querySecret ≠ w.envSecret) := by
  by_cases hsec : req.querySecret = w.envSecret
  · constructor
    · intro _ _
      cases hfr : w.fetchResult req.querySlug <;>
        simp [handler, hm, hsec, hfr, noEffects]
    · cases hfr : w.fetchResult req.querySlug <;>
        simp [handler, hm, hsec, hfr, noEffects]
  · constructor
    · intro h1 h2
      exact absurd (by rw [h1, h2]) hsec
    · simp [handler, hm, hsec, noEffects]

theorem get_secret_gate_witness :
    (handler wNoSecret reqGetNoSecret).2.fetchCalls = ["store"] :=
  (get_secret_gate wNoSecret reqGetNoSecret rfl).1 rfl rfl

/-- C2: a PATCH with tenant, id and slug present whose token verifies to the
tenant's own id and whose update succeeds responds 200 with the original
submitted tenant object, uncast. -/
theorem patch_success_echoes_original (w : World) (req : Request) (tenant : Obj)
    (hm : req.method = "PATCH") (ht : req.bodyTenant = some tenant)
    (hid : truthy (objGet tenant "id") = true)
    (hslug : truthy (objGet tenant "slug") = true)
    (hv : w.verifyResult req.authToken = .ok ((objGet tenant "id").getD ""))
    (hup : w.updateResult ((objGet tenant "id").getD "")
        (serverUpdateCast (removeId tenant)) = .ok ()) :
    (handler w req).1 = ⟨200, .json tenant⟩ := by
  simp [handler, hm, ht, hid, hslug, hv, hup]

theorem patch_success_echoes_original_witness :
    (handler wOk reqPatch).1 = ⟨200, .json patchTenant⟩ :=
  patch_success_echoes_original wOk reqPatch patchTenant rfl rfl (by decide) (by decide)
    (by decide) rfl

/-- C3: a PATCH with tenant, id and slug present whose token verifies to a
user different from the tenant's id responds 403 with no body and does not
invoke `TenantStore.update`. -/
theorem patch_identity_mismatch_403 (w : World) (req : Request) (tenant : Obj) (uid : String)
    (hm : req.method = "PATCH") (ht : req.bodyTenant = some tenant)
    (hid : truthy (objGet tenant "id") = true)
    (hslug : truthy (objGet tenant "slug") = true)
    (hv : w.verifyResult req.authToken = .ok uid)
    (hne : uid ≠ (objGet tenant "id").getD "") :
    (handler w req).1 = ⟨403, .empty⟩ ∧ (handler w req).2.updateCalls = [] := by
  simp [handler, hm, ht, hid, hslug, hv, hne, noEffects]

theorem patch_identity_mismatch_403_witness :
    (handler wOk reqPatchIntruder).1 = ⟨403, .empty⟩ ∧
    (handler wOk reqPatchIntruder).2.updateCalls = [] :=
  patch_identity_mismatch_403 wOk reqPatchIntruder patchTenant "u2" rfl rfl (by decide)
    (by decide) (by decide) (by decide)

/-- C4: a PATCH with tenant, id and slug present whose session verification
fails responds 401 with the fixed Spanish expired-session message and does
not invoke `TenantStore.update`. -/
theorem patch_bad_token_401 (w : World) (req : Request) (tenant : Obj)
    (hm : req.method = "PATCH") (ht : req.bodyTenant = some tenant)
    (hid : truthy (objGet tenant "id") = true)
    (hslug : truthy (objGet tenant "slug") = true)
    (hv : w.verifyResult req.authToken = .error ()) :
    (handler w req).1 =
      ⟨401, .text "La sesión expiró, volvé a iniciar sesión para continuar"⟩ ∧
    (handler w req).2.updateCalls = [] := by
  simp [handler, hm, ht, hid, hslug, hv, noEffects]

theorem patch_bad_token_401_witness :
    (handler wErr reqPatch).1 =
      ⟨401, .text "La sesión expiró, volvé a iniciar sesión para continuar"⟩ ∧
    (handler wErr reqPatch).2.updateCalls = [] :=
  patch_bad_token_401 wErr reqPatch patchTenant rfl rfl (by decide) (by decide) rfl

/-- C5: a PATCH with matching verified identity whose update fails responds
400 with the fixed Spanish update-error message, whatever the store's error
content. -/
theorem patch_update_failure_400 (w : World) (req : Request) (tenant : Obj) (e : StoreError)
    (hm : req.method = "PATCH") (ht : req.bodyTenant = some tenant)
    (hid : truthy (objGet tenant "id") = true)
    (hslug : truthy (objGet tenant "slug") = true)
    (hv : w.verifyResult req.authToken = .ok ((objGet tenant "id").getD ""))
    (hup : w.updateResult ((objGet tenant "id").getD "")
        (serverUpdateCast (removeId tenant)) = .error e) :
    (handler w req).1 = ⟨400, .text "Hubo un error actualizando la tienda"⟩ := by
  simp [handler, hm, ht, hid, hslug, hv, hup]

theorem patch_update_failure_400_witness :
    (handler wUpdateFail reqPatch).1 = ⟨400, .text "Hubo un error actualizando la tienda"⟩ :=
  patch_update_failure_400 wUpdateFail reqPatch patchTenant ⟨502, "db down"⟩ rfl rfl
    (by decide) (by decide) (by decide) rfl

/-- Removing the `id` field does not change the lookup of any other key. -/
theorem objGet_removeId (t : Obj) (k : String) (hk : k ≠ "id") :
    objGet (removeId t) k = objGet t k := by
  induction t with
  | nil => rfl
  | cons kv rest ih =>
    by_cases hb : kv.1 = k
    · have h1 : (kv.1 != "id") = true := by simpa [bne_iff_ne, hb] using hk
      have hrm : removeId (kv :: rest) = kv :: removeId rest := by
        simp [removeId, List.filter_cons, h1]
      rw [hrm]
      simp [objGet, List.find?_cons, hb]
    · have h2 : (kv.1 == k) = false := by simp [hb]
      by_cases h1 : kv.1 = "id"
      · have hrm : removeId (kv :: rest) = removeId rest := by
          simp [removeId, List.filter_cons, h1]
        rw [hrm, ih]
        simp [objGet, List.find?_cons, h2]
      · have h1' : (kv.1 != "id") = true := by simp [bne_iff_ne, h1]
        have hrm : removeId (kv :: rest) = kv :: removeId rest := by
          simp [removeId, List.filter_cons, h1']
        rw [hrm]
        simp only [objGet, List.find?_cons, h2] at ih ⊢
        exact ih

/-- C9: a PATCH reaching the update call forwards exactly the submitted
tenant minus the id field, through the server-update cast: no field with a
key other than "id" is withheld, the slug field is forwarded unchanged, and
nothing keyed "id" survives. -/
theorem patch_forwards_rest_without_id (w : World) (req : Request) (tenant : Obj)
    (hm : req.method = "PATCH") (ht : req.bodyTenant = some tenant)
    (hid : truthy (objGet tenant "id") = true)
    (hslug : truthy (objGet tenant "slug") = true)
    (hv : w.verifyResult req.authToken = .ok ((objGet tenant "id").getD "")) :
    (handler w req).2.updateCalls =
      [((objGet tenant "id").getD "", serverUpdateCast (removeId tenant))] ∧
    (∀ kv ∈ serverUpdateCast (removeId tenant), kv.1 ≠ "id") ∧
    (∀ kv ∈ tenant, kv.1 ≠ "id" → kv ∈ serverUpdateCast (removeId tenant)) ∧
    objGet (serverUpdateCast (removeId tenant)) "slug" = objGet tenant "slug" := by
  refine ⟨?_, ?_, ?_, ?_⟩
  · cases hur : w.updateResult ((objGet tenant "id").getD "")
        (serverUpdateCast (removeId tenant)) <;>
      simp [handler, hm, ht, hid, hslug, hv, hur, noEffects]
  · intro kv hkv
    have := List.of_mem_filter hkv
    simpa using this
  · intro kv hkv hne
    exact List.mem_filter.2 ⟨hkv, by simpa using hne⟩
  · exact objGet_removeId tenant "slug" (by decide)

theorem patch_forwards_rest_without_id_witness :
    (handler wOk reqPatch).2.updateCalls =
      [("u1", [("slug", "store"), ("color", "teal")])] :=
  (patch_forwards_rest_without_id wOk reqPatch patchTenant rfl rfl (by decide) (by decide)
    (by decide)).1

/-- C1: a POST passing validation (all fields present and non-blank, secret
matching, cast draft valid against the server fetch schema) delegates to
`TenantStore.create` a draft with tier "commercial" and `tierUntil` exactly
one week after its `createdAt`; if create succeeds it responds 200 with
`{success: true}`. -/
theorem post_valid_creates_trial (w : World) (req : Request)
    (hm : req.method = "POST")
    (he : truthy req.bodyEmail = true) (hp : truthy req.bodyPassword = true)
    (hs : req.querySlug ≠ "") (hq : truthy req.bodySecret = true)
    (hmatch : req.bodySecret = w.envSecret)
    (hv : w.serverFetchIsValid "fake-id" (postDraft w req.querySlug) = true)
    (hc : w.createResult (req.bodyEmail.getD "") (req.bodyPassword.getD "")
        (postDraft w req.querySlug) = .ok ()) :
    ∃ d : TenantDraft,
      (handler w req).2.createCalls =
        [(req.bodyEmail.getD "", req.bodyPassword.getD "", d)] ∧
      d.tier = "commercial" ∧ d.tierUntil = d.createdAt + oneWeekMs ∧
      (handler w req).1 = ⟨200, .jsonSuccess⟩ := by
  have hq' : truthy w.envSecret = true := hmatch ▸ hq
  refine ⟨postDraft w req.querySlug, ?_, rfl, rfl, ?_⟩ <;>
    simp [handler, hm, he, hp, hs, hq, hq', hmatch, hv, hc, noEffects]

theorem post_valid_creates_trial_witness :
    ∃ d : TenantDraft,
      (handler wOk reqPost).2.createCalls = [("a@b.c", "hunter2", d)] ∧
      d.tier = "commercial" ∧ d.tierUntil = d.createdAt + oneWeekMs ∧
      (handler wOk reqPost).1 = ⟨200, .jsonSuccess⟩ :=
  post_valid_creates_trial wOk reqPost rfl (by decide) (by decide) (by decide)
    (by decide) (by decide) rfl rfl

/-- C8: a failing `TenantStore.fetch` on a secret-matching GET, and a failing
`TenantStore.create` on a validated POST, are answered with exactly the store
error's status and its statusText as the body. -/
theorem store_error_propagated (w : World) (req : Request) (e : StoreError) :
    (req.method = "GET" → req.querySecret = w.envSecret →
      w.fetchResult req.querySlug = .error e →
      (handler w req).1 = ⟨e.status, .text e.statusText⟩) ∧
    (req.method = "POST" →
      truthy req.bodyEmail = true → truthy req.bodyPassword = true →
      req.querySlug ≠ "" → truthy req.bodySecret = true →
      req.bodySecret = w.envSecret →
      w.serverFetchIsValid "fake-id" (postDraft w req.querySlug) = true →
      w.createResult (req.bodyEmail.getD "") (req.bodyPassword.getD "")
        (postDraft w req.querySlug) = .error e →
      (handler w req).1 = ⟨e.status, .text e.statusText⟩) := by
  constructor
  · intro hm hsec hfr
    simp [handler, hm, hsec, hfr]
  · intro hm he hp hs hq hmatch hv hc
    have hq' : truthy w.envSecret = true := hmatch ▸ hq
    simp [handler, hm, he, hp, hs, hq, hq', hmatch, hv, hc]

theorem store_error_propagated_witness :
    (handler wErr reqGet).1 = ⟨418, .text "teapot"⟩ ∧
    (handler wErr reqPost).1 = ⟨409, .text "conflict"⟩ :=
  ⟨(store_error_propagated wErr reqGet ⟨418, "teapot"⟩).1 rfl rfl rfl,
   (store_error_propagated wErr reqPost ⟨409, "conflict"⟩).2 rfl (by decide) (by decide)
     (by decide) (by decide) (by decide) rfl rfl⟩

end TenantEndpoint
